import Mathlib

/-!
Shallow embedding of the credential-resolution and connection-caching core of
`azd-functions-sharepoint-webhooks` (file `utils/spAuthentication.ts`).

Naming note: the TypeScript field `tenantPrefix` is rendered here as `tenantPfx`
(and the configuration key `TenantPrefix` as `TenantPfx`); all other names follow
the source. Object identity of JavaScript allocations (`new DefaultAzureCredential`,
`spfi(...)`) is modelled by a fresh-id counter threaded through the operations:
each allocation consumes one id, so two allocations are `=` in the model exactly
when they are the same runtime object.
-/

namespace SPWebhooks

/-- Process-wide configuration consumed by the core (`CommonConfig` in `common.ts`):
tenant prefix default, site relative path default, SharePoint domain suffix,
optional user-assigned managed identity client id, User-Agent string, local-vs-cloud flag. -/
structure CommonConfigT where
  TenantPfx : String
  SiteRelativePath : String
  SharePointDomain : String
  IsLocalEnvironment : Bool
  UserAssignedManagedIdentityClientId : Option String
  UserAgent : String
deriving DecidableEq, Repr

/-- `interface SharePointSiteInfo { tenantPrefix: string; siteRelativePath: string }`. -/
structure SharePointSiteInfo where
  tenantPfx : String
  siteRelativePath : String
deriving DecidableEq, Repr

/-- JavaScript truthiness of `x ? x : d` for an optional string `x`:
`undefined` (here `none`) and the empty string are falsy, every other string is truthy. -/
def truthyOrElse : Option String → String → String
  | some s, d => if s = "" then d else s
  | none, d => d

/-- `getSharePointSiteInfo(tenantPrefix?, siteRelativePath?)`: each field is
`arg ? arg : CommonConfig.<default>` (JavaScript truthiness). -/
def getSharePointSiteInfo (cfg : CommonConfigT)
    (tenantPfx siteRelativePath : Option String) : SharePointSiteInfo :=
  { tenantPfx := truthyOrElse tenantPfx cfg.TenantPfx
    siteRelativePath := truthyOrElse siteRelativePath cfg.SiteRelativePath }

/-- `getScopes(tenantPrefix)`: starts from the single default scope
`https://{tenantPrefix}.sharepoint.com/.default` (note the literal
`sharepoint.com`), and pushes `"Sites.Selected"` exactly when
`CommonConfig.IsLocalEnvironment` holds. -/
def getScopes (cfg : CommonConfigT) (tenantPfx : String) : List String :=
  let scopes : List String := ["https://" ++ tenantPfx ++ ".sharepoint.com/.default"]
  if cfg.IsLocalEnvironment then scopes ++ ["Sites.Selected"] else scopes

/-- The credential strategy carried by a constructed credential object.
The source's `getAzureCredential` only ever builds a `DefaultAzureCredential`
configured with `CommonConfig.UserAssignedManagedIdentityClientId`. -/
inductive CredentialKind where
  | defaultAzureCredential (managedIdentityClientId : Option String)
deriving DecidableEq, Repr

/-- A constructed credential object: `objId` is its allocation identity
(`new` produces a fresh object on every evaluation). -/
structure Credential where
  objId : Nat
  kind : CredentialKind
deriving DecidableEq, Repr

/-- `withDefaultAzureCredential()`: evaluates `new DefaultAzureCredential({
managedIdentityClientId: CommonConfig.UserAssignedManagedIdentityClientId })`,
allocating a fresh object each time it runs. -/
def withDefaultAzureCredential (cfg : CommonConfigT) (nextObjId : Nat) : Credential × Nat :=
  ({ objId := nextObjId
     kind := .defaultAzureCredential cfg.UserAssignedManagedIdentityClientId }, nextObjId + 1)

/-- `getAzureCredential()`: simply `return withDefaultAzureCredential()`. -/
def getAzureCredential (cfg : CommonConfigT) (nextObjId : Nat) : Credential × Nat :=
  withDefaultAzureCredential cfg nextObjId

/-- One behavior attached to the request pipeline by `CustomConnection`. -/
inductive Behavior where
  | defaultHeaders
  | spDefault
  | nodeFetchWithRetry (retries : Nat)
  | defaultParse
  | injectHeaders (headers : List (String × String))
deriving DecidableEq, Repr

/-- `CustomConnection()`: the behaviors it attaches via `instance.using(...)`, in
source order: `DefaultHeaders()`, `SPDefault()`, `NodeFetchWithRetry({retries: 4})`,
`DefaultParse()`, `InjectHeaders({UserAgent, "X-ClientTag"})`. -/
def CustomConnection (cfg : CommonConfigT) : List Behavior :=
  [ .defaultHeaders
  , .spDefault
  , .nodeFetchWithRetry 4
  , .defaultParse
  , .injectHeaders [("UserAgent", cfg.UserAgent), ("X-ClientTag", cfg.UserAgent)] ]

/-- A constructed SPFI client object:
`spfi(baseUrl).using(CustomConnection(), AzureIdentity(credential, scopes, undefined))`.
`objId` is its allocation identity. -/
structure SPFI where
  objId : Nat
  baseUrl : String
  behaviors : List Behavior
  credential : Credential
  scopes : List String
deriving DecidableEq, Repr

/-- `interface SharePointSiteConnection extends SharePointSiteInfo { spfi: SPFI }`. -/
structure SharePointSiteConnection where
  tenantPfx : String
  siteRelativePath : String
  spfi : SPFI
deriving DecidableEq, Repr

/-- `initSPFI(spSite)`: resolves a credential, derives
`https://${tenantPrefix}.${SharePointDomain}${siteRelativePath}`, resolves scopes,
builds the client with `CustomConnection()` and the credential binding, and returns
`spSite` itself widened to a `SharePointSiteConnection` with `spfi` assigned
(the source mutates the caller's object via `spSite as SharePointSiteConnection`;
the returned record is that object's post-state). -/
def initSPFI (cfg : CommonConfigT) (spSite : SharePointSiteInfo) (nextObjId : Nat) :
    SharePointSiteConnection × Nat :=
  let credStep := getAzureCredential cfg nextObjId
  let baseUrl : String :=
    "https://" ++ spSite.tenantPfx ++ "." ++ cfg.SharePointDomain ++ spSite.siteRelativePath
  let scopes : List String := getScopes cfg spSite.tenantPfx
  let spConnection : SPFI :=
    { objId := credStep.2
      baseUrl := baseUrl
      behaviors := CustomConnection cfg
      credential := credStep.1
      scopes := scopes }
  ({ tenantPfx := spSite.tenantPfx
     siteRelativePath := spSite.siteRelativePath
     spfi := spConnection }, credStep.2 + 1)

/-- The predicate of `spfiCollection.find(...)` in `getSPFI`: value equality of
both identity fields. -/
def matchesSite (spSite : SharePointSiteInfo) (item : SharePointSiteConnection) : Bool :=
  item.siteRelativePath == spSite.siteRelativePath && item.tenantPfx == spSite.tenantPfx

/-- Module-level mutable state: the `spfiCollection` array, plus the fresh-id
counter modelling object allocation. -/
structure SPState where
  spfiCollection : List SharePointSiteConnection
  nextObjId : Nat
deriving DecidableEq, Repr

/-- `getSPFI(spSite)`: look up a cached connection by field equality; on a miss,
`initSPFI` then `spfiCollection.push` before returning the client. -/
def getSPFI (cfg : CommonConfigT) (spSite : SharePointSiteInfo) (st : SPState) :
    SPFI × SPState :=
  match st.spfiCollection.find? (matchesSite spSite) with
  | some connectionCache => (connectionCache.spfi, st)
  | none =>
    let r := initSPFI cfg spSite st.nextObjId
    (r.1.spfi, { spfiCollection := st.spfiCollection ++ [r.1], nextObjId := r.2 })

/-- The caller's `spSite` object as observed after `getSPFI` returns: either still
a plain two-field object, or with an `spfi` property added to it. -/
inductive CallerSiteObject where
  | plain (info : SharePointSiteInfo)
  | withSpfiProp (info : SharePointSiteInfo) (client : SPFI)
deriving DecidableEq, Repr

/-- Post-state of the caller's `spSite` argument across a `getSPFI` call. On a hit
the argument is only read; on a miss `initSPFI` executes
`let siteConnection = spSite as SharePointSiteConnection; siteConnection.spfi = spConnection`,
an in-place cast-and-assign on the caller's object (no copy), adding the `spfi`
property to it. -/
def getSPFIcallerObject (cfg : CommonConfigT) (spSite : SharePointSiteInfo) (st : SPState) :
    CallerSiteObject :=
  match st.spfiCollection.find? (matchesSite spSite) with
  | some _ => .plain spSite
  | none => .withSpfiProp spSite (initSPFI cfg spSite st.nextObjId).1.spfi

/-- `getSPFI` with the construction step abstracted as a fallible `init`
(in the source, `initSPFI` can throw inside `spfi(...)`/`new DefaultAzureCredential`;
an exception propagates out of `getSPFI` before `spfiCollection.push` runs, leaving
the module state untouched). -/
def getSPFIWith {ε : Type} (init : SharePointSiteInfo → Nat → Except ε (SharePointSiteConnection × Nat))
    (spSite : SharePointSiteInfo) (st : SPState) : Except ε SPFI × SPState :=
  match st.spfiCollection.find? (matchesSite spSite) with
  | some connectionCache => (.ok connectionCache.spfi, st)
  | none =>
    match init spSite st.nextObjId with
    | .error e => (.error e, st)
    | .ok r => (.ok r.1.spfi, { spfiCollection := st.spfiCollection ++ [r.1], nextObjId := r.2 })

/-- The empty module state at process start (`const spfiCollection = []`). -/
def initialState : SPState := { spfiCollection := [], nextObjId := 0 }

/-- A sequence of `getSPFI` calls starting from a given state. -/
def runCalls (cfg : CommonConfigT) (calls : List SharePointSiteInfo) (st : SPState) : SPState :=
  calls.foldl (fun s site => (getSPFI cfg site s).2) st

/-- Identity key of a cached connection (the two fields compared by the cache lookup). -/
def connKey (c : SharePointSiteConnection) : String × String := (c.tenantPfx, c.siteRelativePath)

/-- Identity key of a site descriptor. -/
def siteKey (s : SharePointSiteInfo) : String × String := (s.tenantPfx, s.siteRelativePath)

/-- Invariant of the module state: cached identities are pairwise distinct, cached
client objects are pairwise distinct allocations, and every cached allocation id
is below the fresh-id counter. -/
def CacheInv (st : SPState) : Prop :=
  (st.spfiCollection.map connKey).Nodup ∧
  (st.spfiCollection.map (fun c => c.spfi.objId)).Nodup ∧
  ∀ c ∈ st.spfiCollection, c.spfi.objId < st.nextObjId

/-- A concrete cloud-side configuration used for witnesses and counterexamples. -/
def cfg0 : CommonConfigT :=
  { TenantPfx := "fabrikam"
    SiteRelativePath := "/sites/HR"
    SharePointDomain := "sharepoint.com"
    IsLocalEnvironment := false
    UserAssignedManagedIdentityClientId := none
    UserAgent := "spo-webhooks-functions" }

/-- A configuration whose SharePoint domain is not the commercial `sharepoint.com`. -/
def cfgVanity : CommonConfigT := { cfg0 with SharePointDomain := "sharepoint.us" }

/-- A concrete site descriptor. -/
def site0 : SharePointSiteInfo := { tenantPfx := "contoso", siteRelativePath := "/sites/Eng" }

/-- A second site descriptor, differing from `site0` in the site relative path. -/
def site1 : SharePointSiteInfo := { tenantPfx := "contoso", siteRelativePath := "/sites/HR" }

/-! ### Supporting lemmas -/

theorem matchesSite_iff (s : SharePointSiteInfo) (c : SharePointSiteConnection) :
    matchesSite s c = true ↔ connKey c = siteKey s := by
  simp only [matchesSite, connKey, siteKey, Bool.and_eq_true, beq_iff_eq, Prod.mk.injEq]
  exact and_comm

theorem initSPFI_connKey (cfg : CommonConfigT) (s : SharePointSiteInfo) (n : Nat) :
    connKey (initSPFI cfg s n).1 = siteKey s := rfl

theorem initSPFI_objId (cfg : CommonConfigT) (s : SharePointSiteInfo) (n : Nat) :
    (initSPFI cfg s n).1.spfi.objId = n + 1 := rfl

theorem initSPFI_counter (cfg : CommonConfigT) (s : SharePointSiteInfo) (n : Nat) :
    (initSPFI cfg s n).2 = n + 2 := rfl

theorem getSPFI_hit {cfg : CommonConfigT} {s : SharePointSiteInfo} {st : SPState}
    {e : SharePointSiteConnection} (h : st.spfiCollection.find? (matchesSite s) = some e) :
    getSPFI cfg s st = (e.spfi, st) := by
  simp [getSPFI, h]

theorem getSPFI_miss {cfg : CommonConfigT} {s : SharePointSiteInfo} {st : SPState}
    (h : st.spfiCollection.find? (matchesSite s) = none) :
    getSPFI cfg s st =
      ((initSPFI cfg s st.nextObjId).1.spfi,
        { spfiCollection := st.spfiCollection ++ [(initSPFI cfg s st.nextObjId).1]
          nextObjId := (initSPFI cfg s st.nextObjId).2 }) := by
  simp [getSPFI, h]

theorem spfi_ne_of_objId_ne {a b : SPFI} (h : a.objId ≠ b.objId) : a ≠ b :=
  fun he => h (congrArg SPFI.objId he)

theorem cacheInv_initialState : CacheInv initialState :=
  ⟨List.nodup_nil, List.nodup_nil, fun c hc => absurd hc (List.not_mem_nil c)⟩

theorem cacheInv_getSPFI (cfg : CommonConfigT) (s : SharePointSiteInfo) {st : SPState}
    (h : CacheInv st) : CacheInv (getSPFI cfg s st).2 := by
  obtain ⟨hkeys, hids, hbound⟩ := h
  cases hfind : st.spfiCollection.find? (matchesSite s) with
  | some e => rw [getSPFI_hit hfind]; exact ⟨hkeys, hids, hbound⟩
  | none =>
    have hnotmem : ∀ c ∈ st.spfiCollection, connKey c ≠ siteKey s := by
      intro c hc hck
      exact (List.find?_eq_none.mp hfind c hc) ((matchesSite_iff s c).2 hck)
    rw [getSPFI_miss hfind]
    refine ⟨?_, ?_, ?_⟩
    · rw [List.map_append]
      refine hkeys.append (List.nodup_singleton _) ?_
      intro a ha ha'
      obtain ⟨c, hc, hck⟩ := List.mem_map.mp ha
      simp only [List.map_cons, List.map_nil, List.mem_singleton] at ha'
      rw [ha', initSPFI_connKey] at hck
      exact hnotmem c hc hck
    · rw [List.map_append]
      refine hids.append (List.nodup_singleton _) ?_
      intro a ha ha'
      obtain ⟨c, hc, hck⟩ := List.mem_map.mp ha
      simp only [List.map_cons, List.map_nil, List.mem_singleton] at ha'
      have hlt := hbound c hc
      rw [ha', initSPFI_objId] at hck
      omega
    · intro c hc
      simp only [initSPFI_counter]
      rcases List.mem_append.mp hc with hmem | hmem
      · have := hbound c hmem; omega
      · rw [List.mem_singleton] at hmem
        subst hmem
        rw [initSPFI_objId]
        omega

theorem runCalls_cons (cfg : CommonConfigT) (a : SharePointSiteInfo)
    (l : List SharePointSiteInfo) (st : SPState) :
    runCalls cfg (a :: l) st = runCalls cfg l (getSPFI cfg a st).2 := rfl

theorem cacheInv_runCalls (cfg : CommonConfigT) (calls : List SharePointSiteInfo) :
    ∀ st : SPState, CacheInv st → CacheInv (runCalls cfg calls st) := by
  induction calls with
  | nil => intro st h; exact h
  | cons a l ih =>
    intro st h
    rw [runCalls_cons]
    exact ih _ (cacheInv_getSPFI cfg a h)

theorem getSPFIWith_ok_agrees (cfg : CommonConfigT) (s : SharePointSiteInfo) (st : SPState) :
    getSPFIWith (fun site n => (Except.ok (initSPFI cfg site n) : Except Unit _)) s st =
      (Except.ok (getSPFI cfg s st).1, (getSPFI cfg s st).2) := by
  cases h : st.spfiCollection.find? (matchesSite s) <;> simp [getSPFIWith, getSPFI, h]

theorem matchesSite_initSPFI (cfg : CommonConfigT) (s : SharePointSiteInfo) (n : Nat) :
    matchesSite s (initSPFI cfg s n).1 = true :=
  (matchesSite_iff s (initSPFI cfg s n).1).2 (initSPFI_connKey cfg s n)

theorem matchesSite_initSPFI_ne (cfg : CommonConfigT) {s1 s2 : SharePointSiteInfo} (n : Nat)
    (hkey : siteKey s1 ≠ siteKey s2) :
    matchesSite s2 (initSPFI cfg s1 n).1 = false := by
  rw [Bool.eq_false_iff]
  intro htrue
  have h := (matchesSite_iff s2 (initSPFI cfg s1 n).1).1 htrue
  rw [initSPFI_connKey] at h
  exact hkey h

theorem find?_after_push (cfg : CommonConfigT) {s1 s2 : SharePointSiteInfo} (st : SPState)
    (n : Nat) (hkey : siteKey s1 ≠ siteKey s2) :
    (st.spfiCollection ++ [(initSPFI cfg s1 n).1]).find? (matchesSite s2) =
      st.spfiCollection.find? (matchesSite s2) := by
  rw [List.find?_append]
  have hfalse := matchesSite_initSPFI_ne cfg n hkey
  cases h : st.spfiCollection.find? (matchesSite s2) <;> simp [hfalse]

/-! ### Claim theorems -/

/-- C1: for every two SiteIdentity values that are field-wise equal, a second call to
`getSPFI` returns the same cached client instance as the first call, with the same
credential binding and the same retry pipeline. -/
theorem getSPFI_second_call_same_instance (cfg : CommonConfigT)
    (s1 s2 : SharePointSiteInfo) (st : SPState)
    (ht : s1.tenantPfx = s2.tenantPfx) (hp : s1.siteRelativePath = s2.siteRelativePath) :
    (getSPFI cfg s2 (getSPFI cfg s1 st).2).1 = (getSPFI cfg s1 st).1 ∧
    (getSPFI cfg s2 (getSPFI cfg s1 st).2).1.credential = (getSPFI cfg s1 st).1.credential ∧
    (getSPFI cfg s2 (getSPFI cfg s1 st).2).1.behaviors = (getSPFI cfg s1 st).1.behaviors := by
  have hs : s1 = s2 := by cases s1; cases s2; simp_all
  subst hs
  have hmain : (getSPFI cfg s1 (getSPFI cfg s1 st).2).1 = (getSPFI cfg s1 st).1 := by
    cases hfind : st.spfiCollection.find? (matchesSite s1) with
    | some e => rw [getSPFI_hit hfind, getSPFI_hit hfind]
    | none =>
      rw [getSPFI_miss hfind]
      have hfind' :
          (st.spfiCollection ++ [(initSPFI cfg s1 st.nextObjId).1]).find? (matchesSite s1) =
            some (initSPFI cfg s1 st.nextObjId).1 := by
        rw [List.find?_append, hfind]
        simp [matchesSite_initSPFI]
      rw [getSPFI_hit hfind']
  exact ⟨hmain, congrArg SPFI.credential hmain, congrArg SPFI.behaviors hmain⟩

/-- Witness for C1 at a concrete configuration, site and initial state. -/
theorem getSPFI_second_call_same_instance_witness :
    (getSPFI cfg0 site0 (getSPFI cfg0 site0 initialState).2).1 =
      (getSPFI cfg0 site0 initialState).1 :=
  (getSPFI_second_call_same_instance cfg0 site0 site0 initialState rfl rfl).1

/-- C3 counterexample: `getSharePointSiteInfo` called with explicit arguments for both
fields does not always return those argument values: the empty string is falsy in
JavaScript, so an explicit empty tenant prefix is replaced by the configured default. -/
theorem getSharePointSiteInfo_explicit_args_counterexample :
    getSharePointSiteInfo cfg0 (some "") (some "/sites/Eng") ≠
      { tenantPfx := "", siteRelativePath := "/sites/Eng" } := by decide

/-- C3 (amended): with no arguments, `getSharePointSiteInfo` returns the configured
defaults; with explicit non-empty arguments for both fields, it returns exactly those
argument values unchanged. -/
theorem getSharePointSiteInfo_defaults_and_explicit (cfg : CommonConfigT) (t p : String)
    (ht : t ≠ "") (hp : p ≠ "") :
    getSharePointSiteInfo cfg none none =
      { tenantPfx := cfg.TenantPfx, siteRelativePath := cfg.SiteRelativePath } ∧
    getSharePointSiteInfo cfg (some t) (some p) =
      { tenantPfx := t, siteRelativePath := p } := by
  refine ⟨rfl, ?_⟩
  simp [getSharePointSiteInfo, truthyOrElse, ht, hp]

/-- Witness for C3 (amended) at concrete non-empty arguments. -/
theorem getSharePointSiteInfo_defaults_and_explicit_witness :
    getSharePointSiteInfo cfg0 (some "contoso") (some "/sites/Eng") =
      { tenantPfx := "contoso", siteRelativePath := "/sites/Eng" } :=
  (getSharePointSiteInfo_defaults_and_explicit cfg0 "contoso" "/sites/Eng"
    (by decide) (by decide)).2

/-- C4: for every tenant prefix, the first scope returned by `getScopes` is exactly
`https://{prefix}.sharepoint.com/.default`; when the local-environment flag is true the
rest of the list is exactly `["Sites.Selected"]`, and when it is false the rest is empty. -/
theorem getScopes_head_and_extra (cfg : CommonConfigT) (t : String) :
    (getScopes cfg t).head? = some ("https://" ++ t ++ ".sharepoint.com/.default") ∧
    (getScopes cfg t).tail = (if cfg.IsLocalEnvironment then ["Sites.Selected"] else []) := by
  cases h : cfg.IsLocalEnvironment <;> simp [getScopes, h]

/-- C5 counterexample: two successive calls to `getAzureCredential` do not yield the
same credential object: each call evaluates `new DefaultAzureCredential(...)`,
allocating a fresh object. -/
theorem getAzureCredential_not_same_object :
    (getAzureCredential cfg0 ((getAzureCredential cfg0 0).2)).1 ≠
      (getAzureCredential cfg0 0).1 := by decide

/-- C5 (amended): `getAzureCredential` constructs a fresh credential object on every
call (the allocation counter advances), but every call yields the same strategy:
a `DefaultAzureCredential` configured with the user-assigned managed identity client id. -/
theorem getAzureCredential_fresh_object_same_strategy (cfg : CommonConfigT) (n : Nat) :
    (getAzureCredential cfg n).1.kind =
      CredentialKind.defaultAzureCredential cfg.UserAssignedManagedIdentityClientId ∧
    (getAzureCredential cfg n).1.objId = n ∧
    (getAzureCredential cfg n).2 = n + 1 :=
  ⟨rfl, rfl, rfl⟩

/-- C2: at every state reachable by a sequence of `getSPFI` calls from the empty cache,
there is at most one cached connection entry per distinct SiteIdentity, comparing
identities by field equality. -/
theorem spfiCollection_at_most_one_per_identity (cfg : CommonConfigT)
    (calls : List SharePointSiteInfo) :
    ((runCalls cfg calls initialState).spfiCollection.map connKey).Nodup :=
  (cacheInv_runCalls cfg calls initialState cacheInv_initialState).1

/-- C6: on a cache miss, `getSPFI` constructs the new client with base URL
`https://{tenantPrefix}.{SharePointDomain}{siteRelativePath}`, scopes from `getScopes`,
a pipeline with default headers, the fixed User-Agent header pair, JSON parsing and a
retry behavior bounded at 4, and appends the new cache entry before returning it. -/
theorem getSPFI_miss_construction (cfg : CommonConfigT) (s : SharePointSiteInfo)
    (st : SPState) (hm : st.spfiCollection.find? (matchesSite s) = none) :
    (getSPFI cfg s st).1.baseUrl =
      "https://" ++ s.tenantPfx ++ "." ++ cfg.SharePointDomain ++ s.siteRelativePath ∧
    (getSPFI cfg s st).1.scopes = getScopes cfg s.tenantPfx ∧
    (getSPFI cfg s st).1.behaviors =
      [ Behavior.defaultHeaders, Behavior.spDefault, Behavior.nodeFetchWithRetry 4,
        Behavior.defaultParse,
        Behavior.injectHeaders [("UserAgent", cfg.UserAgent), ("X-ClientTag", cfg.UserAgent)] ] ∧
    (getSPFI cfg s st).2.spfiCollection =
      st.spfiCollection ++
        [{ tenantPfx := s.tenantPfx, siteRelativePath := s.siteRelativePath,
           spfi := (getSPFI cfg s st).1 }] := by
  simp only [getSPFI_miss hm]
  exact ⟨rfl, rfl, rfl, rfl⟩

/-- Witness for C6 at a concrete configuration, site and the empty cache. -/
theorem getSPFI_miss_construction_witness :
    (getSPFI cfg0 site0 initialState).1.baseUrl =
      "https://" ++ site0.tenantPfx ++ "." ++ cfg0.SharePointDomain ++ site0.siteRelativePath :=
  (getSPFI_miss_construction cfg0 site0 initialState rfl).1

theorem getSPFI_distinct_of_inv (cfg : CommonConfigT) (s1 s2 : SharePointSiteInfo)
    (st : SPState) (hinv : CacheInv st) (hkey : siteKey s1 ≠ siteKey s2) :
    (getSPFI cfg s2 (getSPFI cfg s1 st).2).1 ≠ (getSPFI cfg s1 st).1 := by
  obtain ⟨hkeys, hids, hbound⟩ := hinv
  cases h1 : st.spfiCollection.find? (matchesSite s1) with
  | some e1 =>
    have he1mem := List.mem_of_find?_eq_some h1
    have he1key : connKey e1 = siteKey s1 := (matchesSite_iff s1 e1).1 (List.find?_some h1)
    simp only [getSPFI_hit h1]
    cases h2 : st.spfiCollection.find? (matchesSite s2) with
    | some e2 =>
      have he2mem := List.mem_of_find?_eq_some h2
      have he2key : connKey e2 = siteKey s2 := (matchesSite_iff s2 e2).1 (List.find?_some h2)
      simp only [getSPFI_hit h2]
      intro he
      have heq : e2 = e1 :=
        List.inj_on_of_nodup_map hids he2mem he1mem (congrArg SPFI.objId he)
      rw [heq, he1key] at he2key
      exact hkey he2key
    | none =>
      simp only [getSPFI_miss h2]
      apply spfi_ne_of_objId_ne
      rw [initSPFI_objId]
      have := hbound e1 he1mem
      omega
  | none =>
    simp only [getSPFI_miss h1]
    cases h2 : st.spfiCollection.find? (matchesSite s2) with
    | some e2 =>
      have he2mem := List.mem_of_find?_eq_some h2
      have hfind2 :
          ({ spfiCollection := st.spfiCollection ++ [(initSPFI cfg s1 st.nextObjId).1]
             nextObjId := (initSPFI cfg s1 st.nextObjId).2 } : SPState).spfiCollection.find?
            (matchesSite s2) = some e2 :=
        (find?_after_push cfg st st.nextObjId hkey).trans h2
      simp only [getSPFI_hit hfind2]
      apply spfi_ne_of_objId_ne
      rw [initSPFI_objId]
      have := hbound e2 he2mem
      omega
    | none =>
      have hfind2 :
          ({ spfiCollection := st.spfiCollection ++ [(initSPFI cfg s1 st.nextObjId).1]
             nextObjId := (initSPFI cfg s1 st.nextObjId).2 } : SPState).spfiCollection.find?
            (matchesSite s2) = none :=
        (find?_after_push cfg st st.nextObjId hkey).trans h2
      simp only [getSPFI_miss hfind2]
      apply spfi_ne_of_objId_ne
      simp only [initSPFI_objId, initSPFI_counter]
      omega

/-- C7: starting from any state reachable by a sequence of `getSPFI` calls, two calls
with SiteIdentity values that differ in the tenant prefix or in the site relative path
return distinct client instances. -/
theorem getSPFI_distinct_identities_distinct_clients (cfg : CommonConfigT)
    (calls : List SharePointSiteInfo) (s1 s2 : SharePointSiteInfo)
    (hdiff : s1.tenantPfx ≠ s2.tenantPfx ∨ s1.siteRelativePath ≠ s2.siteRelativePath) :
    (getSPFI cfg s2 (getSPFI cfg s1 (runCalls cfg calls initialState)).2).1 ≠
      (getSPFI cfg s1 (runCalls cfg calls initialState)).1 := by
  have hinv := cacheInv_runCalls cfg calls initialState cacheInv_initialState
  have hkey : siteKey s1 ≠ siteKey s2 := by
    intro h
    cases hdiff with
    | inl h1 => exact h1 (congrArg Prod.fst h)
    | inr h2 => exact h2 (congrArg Prod.snd h)
  exact getSPFI_distinct_of_inv cfg s1 s2 _ hinv hkey

/-- Witness for C7 at two concrete sites differing in the site relative path. -/
theorem getSPFI_distinct_identities_distinct_clients_witness :
    (getSPFI cfg0 site1 (getSPFI cfg0 site0 (runCalls cfg0 [] initialState)).2).1 ≠
      (getSPFI cfg0 site0 (runCalls cfg0 [] initialState)).1 :=
  getSPFI_distinct_identities_distinct_clients cfg0 [] site0 site1 (Or.inr (by decide))

/-- C8: when connection construction fails on a cache miss, the error propagates and
no entry is inserted: the module state is unchanged by the failed call. -/
theorem getSPFIWith_failure_no_insert {ε : Type}
    (init : SharePointSiteInfo → Nat → Except ε (SharePointSiteConnection × Nat))
    (s : SharePointSiteInfo) (st : SPState) (e : ε)
    (hm : st.spfiCollection.find? (matchesSite s) = none)
    (hf : init s st.nextObjId = Except.error e) :
    getSPFIWith init s st = (Except.error e, st) := by
  simp [getSPFIWith, hm, hf]

/-- Witness for C8 with a construction step that always throws, on the empty cache. -/
theorem getSPFIWith_failure_no_insert_witness :
    getSPFIWith
        (fun _ _ => (Except.error "authentication failed" :
          Except String (SharePointSiteConnection × Nat))) site0 initialState =
      (Except.error "authentication failed", initialState) :=
  getSPFIWith_failure_no_insert _ site0 initialState "authentication failed" rfl rfl

/-- C9 counterexample: `getSPFI` on a cache miss does mutate the caller's SiteIdentity
object: `initSPFI` casts it to `SharePointSiteConnection` and assigns its `spfi`
property in place, so the caller's object no longer equals a plain two-field object. -/
theorem getSPFI_mutates_caller_object_counterexample :
    getSPFIcallerObject cfg0 site0 initialState ≠ CallerSiteObject.plain site0 := by decide

/-- C9 (amended): `getSPFI` never modifies the `tenantPrefix` and `siteRelativePath`
fields of the caller's SiteIdentity object: on a cache hit the object is untouched;
on a cache miss, however, the constructed client is added to it as an `spfi` property
(the cache entry aliases the caller's object). -/
theorem getSPFI_preserves_fields_adds_spfi_on_miss (cfg : CommonConfigT)
    (s : SharePointSiteInfo) (st : SPState) :
    (∀ e, st.spfiCollection.find? (matchesSite s) = some e →
      getSPFIcallerObject cfg s st = CallerSiteObject.plain s) ∧
    (st.spfiCollection.find? (matchesSite s) = none →
      getSPFIcallerObject cfg s st = CallerSiteObject.withSpfiProp s (getSPFI cfg s st).1) := by
  constructor
  · intro e he
    simp [getSPFIcallerObject, he]
  · intro hn
    simp [getSPFIcallerObject, getSPFI, hn]

/-- Witness for C9 (amended) on the empty cache: the `spfi` property is added. -/
theorem getSPFI_preserves_fields_adds_spfi_on_miss_witness :
    getSPFIcallerObject cfg0 site1 initialState =
      CallerSiteObject.withSpfiProp site1 (getSPFI cfg0 site1 initialState).1 :=
  (getSPFI_preserves_fields_adds_spfi_on_miss cfg0 site1 initialState).2 rfl

/-- C10: the default scope built by `getScopes` uses the literal domain
`sharepoint.com` and is independent of the configured SharePoint domain, while the
base URL built on a cache miss uses the configured domain; when the configured domain
is not `sharepoint.com`, the scope and the base-URL pattern name different domains. -/
theorem getScopes_fixed_domain_vs_baseUrl (cfg : CommonConfigT) (d t : String)
    (s : SharePointSiteInfo) (n : Nat) :
    getScopes { cfg with SharePointDomain := d } t = getScopes cfg t ∧
    (getScopes cfg t).head? = some ("https://" ++ t ++ ".sharepoint.com/.default") ∧
    (initSPFI cfg s n).1.spfi.baseUrl =
      "https://" ++ s.tenantPfx ++ "." ++ cfg.SharePointDomain ++ s.siteRelativePath ∧
    (cfg.SharePointDomain ≠ "sharepoint.com" →
      "https://" ++ t ++ ".sharepoint.com/.default" ≠
        "https://" ++ t ++ "." ++ cfg.SharePointDomain ++ "/.default") := by
  refine ⟨rfl, ?_, rfl, ?_⟩
  · cases h : cfg.IsLocalEnvironment <;> simp [getScopes, h]
  · intro hd heq
    have hdata := congrArg String.data heq
    simp only [String.data_append, List.append_assoc] at hdata
    have h1 := List.append_cancel_left hdata
    have h2 := List.append_cancel_left h1
    rw [List.singleton_append] at h2
    injection h2 with h2a h2b
    have h3 : (['s','h','a','r','e','p','o','i','n','t','.','c','o','m'] : List Char) ++
        ['/', '.', 'd', 'e', 'f', 'a', 'u', 'l', 't'] =
        ['s','h','a','r','e','p','o','i','n','t','.','c','o','m',
         '/','.','d','e','f','a','u','l','t'] := rfl
    rw [← h3] at h2b
    have h4 := List.append_cancel_right h2b
    have h5 : cfg.SharePointDomain = "sharepoint.com" := String.ext h4.symm
    exact hd h5

/-- Witness for C10 at a configuration whose domain is `sharepoint.us`. -/
theorem getScopes_fixed_domain_vs_baseUrl_witness :
    "https://" ++ "contoso" ++ ".sharepoint.com/.default" ≠
      "https://" ++ "contoso" ++ "." ++ cfgVanity.SharePointDomain ++ "/.default" :=
  (getScopes_fixed_domain_vs_baseUrl cfgVanity "sharepoint.de" "contoso" site0 0).2.2.2
    (by decide)

end SPWebhooks
